import Mathlib

/-!
Verification of the chogwatch eligibility screening core.

This file shallowly embeds the exposure calculator (`lib/chog.ts`), the
data-access helpers it relies on (`lib/db.ts`), and the screening
orchestrator (`cron/screening.ts`).  On-chain reads are modelled as
oracles `String → Except String _` (per wallet address / per pool); fallible
JavaScript code is modelled with `Except`; `bigint` arithmetic is `Nat`
(all quantities involved are non-negative).  Database tables are lists of
records and the SQL helpers become pure functions on that state.
-/

namespace Chogwatch

/-- Run status taxonomy of `screening_runs.status`.  The string literal
`'partial'` of the source is the constructor `partialRun`. -/
inductive RunStatus
  | running
  | success
  | error
  | partialRun
deriving DecidableEq, Repr

/-- Wallet status taxonomy of `wallets.status`. -/
inductive WalletStatus
  | verified
  | pending
  | error
deriving DecidableEq, Repr

/-- Row of the `lp_pairs` table (interface `LpPair` in `lib/db.ts`). -/
structure LpPair where
  pair_address : String
  name : Option String
  token0 : String
  token1 : String
  chog_side : Nat
  enabled : Nat
  created_at : Nat
deriving DecidableEq, Repr

/-- The three on-chain reads `getLpChogExposure` performs against one pool
for one wallet: `balanceOf(user)`, `totalSupply()` and `getReserves()`. -/
structure PoolReads where
  userLpBalance : Nat
  totalSupply : Nat
  reserve0 : Nat
  reserve1 : Nat
deriving DecidableEq, Repr

/-- JavaScript `bigint` division: throws `RangeError` on a zero divisor,
otherwise truncates; on non-negative operands truncation is floor. -/
def bigintDiv (a b : Nat) : Except String Nat :=
  if b = 0 then .error "Division by zero" else .ok (a / b)

/-- Model of `getLpChogExposure` (`lib/chog.ts`), after its three chain reads
succeeded: the early zero return, the side-indexed reserve selection and
the proportional-share division.  Returns `(userLpBalance, chogUnderlying)`. -/
def getLpChogExposure (lpPair : LpPair) (reads : PoolReads) :
    Except String (Nat × Nat) :=
  if reads.userLpBalance = 0 ∨ reads.totalSupply = 0 then
    .ok (0, 0)
  else
    let chogReserve := if lpPair.chog_side = 0 then reads.reserve0 else reads.reserve1
    match bigintDiv (reads.userLpBalance * chogReserve) reads.totalSupply with
    | .error e => .error e
    | .ok chogUnderlying => .ok (reads.userLpBalance, chogUnderlying)

/-- One entry of `ChogExposure.lpBreakdown`. -/
structure LpBreakdownEntry where
  pairAddress : String
  pairName : Option String
  userLpBalance : Nat
  chogUnderlying : Nat
deriving DecidableEq, Repr

/-- Result shape of `getTotalChogExposure` (interface `ChogExposure`). -/
structure ChogExposure where
  directBalance : Nat
  lpBalance : Nat
  totalBalance : Nat
  lpBreakdown : List LpBreakdownEntry
deriving DecidableEq, Repr

/-- The `for (const pair of lpPairs)` loop of `getTotalChogExposure`: a
pool whose reads (or whose division) throw is caught and skipped; a pool
with positive underlying is pushed onto the breakdown and added to the
running LP balance.  Returns `(lpBalance, lpBreakdown)`. -/
def lpLoop (poolReads : LpPair → Except String PoolReads) :
    List LpPair → Nat × List LpBreakdownEntry
  | [] => (0, [])
  | pair :: rest =>
    let head : Nat × List LpBreakdownEntry :=
      match poolReads pair with
      | .error _ => (0, [])
      | .ok reads =>
        match getLpChogExposure pair reads with
        | .error _ => (0, [])
        | .ok res =>
          if res.2 > 0 then
            (res.2, [⟨pair.pair_address, pair.name, res.1, res.2⟩])
          else (0, [])
    let tail := lpLoop poolReads rest
    (head.1 + tail.1, head.2 ++ tail.2)

/-- Model of `getTotalChogExposure` (`lib/chog.ts`).  The direct `balanceOf` read is
not guarded by a try/catch, so its failure propagates; each pool is
processed by `lpLoop`. -/
def getTotalChogExposure (directRead : Except String Nat)
    (poolReads : LpPair → Except String PoolReads)
    (lpPairs : List LpPair) : Except String ChogExposure :=
  match directRead with
  | .error e => .error e
  | .ok directBalance =>
    let r := lpLoop poolReads lpPairs
    .ok { directBalance := directBalance
          lpBalance := r.1
          totalBalance := directBalance + r.1
          lpBreakdown := r.2 }

/-- What one pool contributes to a wallet's LP balance: zero when its reads
fail, the computed underlying amount otherwise. -/
def poolContribution (poolReads : LpPair → Except String PoolReads)
    (pair : LpPair) : Nat :=
  match poolReads pair with
  | .error _ => 0
  | .ok reads =>
    match getLpChogExposure pair reads with
    | .error _ => 0
    | .ok res => res.2

/-- The breakdown entry one pool produces, when any: present exactly when
its reads succeed and the underlying amount is positive. -/
def poolEntry (poolReads : LpPair → Except String PoolReads)
    (pair : LpPair) : Option LpBreakdownEntry :=
  match poolReads pair with
  | .error _ => none
  | .ok reads =>
    match getLpChogExposure pair reads with
    | .error _ => none
    | .ok res =>
      if res.2 > 0 then some ⟨pair.pair_address, pair.name, res.1, res.2⟩
      else none

/-- Model of `isEligible` (`lib/chog.ts`): plain `bigint` comparison
`balance >= threshold`. -/
def isEligible (balance : Nat) (thresholdRaw : Nat) : Bool :=
  decide (thresholdRaw ≤ balance)

/-- Row of the `profiles` table (interface `Profile` in `lib/db.ts`). -/
structure ProfileRec where
  id : String
  telegram_handle : String
  edit_secret_hash : String
  created_at : Nat
  updated_at : Nat
deriving DecidableEq, Repr

/-- Row of the `wallets` table (interface `Wallet` in `lib/db.ts`). -/
structure WalletRec where
  id : String
  profile_id : String
  address : String
  wallet_rdns : Option String
  verified_at : Option Nat
  last_checked_at : Option Nat
  last_direct_chog_raw : Option String
  last_lp_chog_raw : Option String
  last_total_chog_raw : Option String
  status : WalletStatus
  error_reason : Option String
  created_at : Nat
deriving DecidableEq, Repr

/-- Row of the `screening_runs` table (interface `ScreeningRun`). -/
structure ScreeningRunRec where
  id : String
  started_at : Nat
  finished_at : Option Nat
  status : RunStatus
  error : Option String
  profiles_processed : Nat
  wallets_processed : Nat
  eligible_count : Nat
  message_sent : Nat
deriving DecidableEq, Repr

/-- One element of the `walletDetails` array the orchestrator serialises
into `profile_snapshots.details_json`. -/
structure WalletDetail where
  address : String
  directChog : String
  lpChog : String
  totalChog : String
deriving DecidableEq, Repr

/-- Row of the `profile_snapshots` table (interface `ProfileSnapshot`).
`details_json` holds `JSON.stringify(walletDetails)` in the source; it is
modelled structurally as the list itself. -/
structure ProfileSnapshotRec where
  run_id : String
  profile_id : String
  total_chog_raw : String
  eligible : Nat
  details_json : List WalletDetail
deriving DecidableEq, Repr

/-- The D1 database state: one list per table plus the `settings` KV
store. -/
structure DB where
  profiles : List ProfileRec
  wallets : List WalletRec
  lp_pairs : List LpPair
  screening_runs : List ScreeningRunRec
  profile_snapshots : List ProfileSnapshotRec
  settings : List (String × String)
deriving DecidableEq, Repr

/-- Query `SELECT value FROM settings WHERE key = ?`. -/
def getSetting (db : DB) (key : String) : Option String :=
  (db.settings.find? (fun kv => kv.1 == key)).map (fun kv => kv.2)

/-- Wallets of one profile, `ORDER BY created_at DESC`
(`getWalletsByProfile` in `lib/db.ts`). -/
def walletCreatedDesc (a b : WalletRec) : Prop := b.created_at ≤ a.created_at

instance : DecidableRel walletCreatedDesc := fun _ b => Nat.decLe b.created_at _

def getWalletsByProfile (db : DB) (profileId : String) : List WalletRec :=
  List.insertionSort walletCreatedDesc
    (db.wallets.filter (fun w => w.profile_id == profileId))

/-- Model of `getAllProfilesWithWallets` (`lib/db.ts`): every profile paired with
its wallets, keeping only profiles that have at least one wallet. -/
def getAllProfilesWithWallets (db : DB) : List (ProfileRec × List WalletRec) :=
  (db.profiles.map (fun p => (p, getWalletsByProfile db p.id))).filter
    (fun pw => !pw.2.isEmpty)

/-- Model of `getEnabledLpPairs` (`lib/db.ts`): `WHERE enabled = 1`. -/
def getEnabledLpPairs (db : DB) : List LpPair :=
  db.lp_pairs.filter (fun p => p.enabled == 1)

/-- Model of `getLastScreeningRun` (`lib/db.ts`):
`WHERE status = 'success' ORDER BY started_at DESC LIMIT 1`, i.e. the
run maximising `started_at` among runs whose status is `success`. -/
def getLastScreeningRun (db : DB) : Option ScreeningRunRec :=
  (db.screening_runs.filter (fun r => r.status == .success)).argmax
    (fun r => r.started_at)

/-- Model of `getSnapshotsForRun` (`lib/db.ts`): `WHERE run_id = ?`. -/
def getSnapshotsForRun (db : DB) (runId : String) : List ProfileSnapshotRec :=
  db.profile_snapshots.filter (fun s => s.run_id == runId)

/-- Model of `updateWalletBalances` (`lib/db.ts`): sets the three cached balance
columns and `last_checked_at` of the wallet with the given id. -/
def updateWalletBalances (db : DB) (walletId : String)
    (directChog lpChog totalChog : String) (now : Nat) : DB :=
  { db with wallets := db.wallets.map (fun w =>
      if w.id == walletId then
        { w with last_direct_chog_raw := some directChog
                 last_lp_chog_raw := some lpChog
                 last_total_chog_raw := some totalChog
                 last_checked_at := some now }
      else w) }

/-- The orchestrator's inline
`UPDATE wallets SET status = 'error', error_reason = ? WHERE id = ?`. -/
def markWalletError (db : DB) (walletId : String) (msg : String) : DB :=
  { db with wallets := db.wallets.map (fun w =>
      if w.id == walletId then
        { w with status := .error, error_reason := some msg }
      else w) }

/-- The orchestrator's `INSERT INTO screening_runs ... VALUES
(?, ?, 'running', 0, 0, 0, 0)`. -/
def insertRunRecord (db : DB) (runId : String) (startedAt : Nat) : DB :=
  { db with screening_runs :=
      ⟨runId, startedAt, none, .running, none, 0, 0, 0, 0⟩ :: db.screening_runs }

/-- The orchestrator's terminal
`UPDATE screening_runs SET ... status = 'success' ... WHERE id = ?`. -/
def markRunSuccess (db : DB) (runId : String) (finishedAt : Nat)
    (profilesN walletsN eligibleN : Nat) (messageSent : Bool) : DB :=
  { db with screening_runs := db.screening_runs.map (fun r =>
      if r.id == runId then
        { r with finished_at := some finishedAt
                 status := .success
                 profiles_processed := profilesN
                 wallets_processed := walletsN
                 eligible_count := eligibleN
                 message_sent := if messageSent then 1 else 0 }
      else r) }

/-- The orchestrator's catch-branch
`UPDATE screening_runs SET finished_at = ?, status = 'error', error = ?`. -/
def markRunError (db : DB) (runId : String) (finishedAt : Nat)
    (msg : String) : DB :=
  { db with screening_runs := db.screening_runs.map (fun r =>
      if r.id == runId then
        { r with finished_at := some finishedAt
                 status := .error
                 error := some msg }
      else r) }

/-- The orchestrator's snapshot insert:
`INSERT INTO profile_snapshots (run_id, profile_id, total_chog_raw,
eligible, details_json) VALUES (?, ?, ?, ?, ?)`. -/
def insertSnapshot (db : DB) (runId profileId : String) (total : Nat)
    (eligible : Bool) (details : List WalletDetail) : DB :=
  { db with profile_snapshots := db.profile_snapshots ++
      [⟨runId, profileId, toString total, if eligible then 1 else 0, details⟩] }

/-- JavaScript `parseInt(s, 10)` restricted to what the settings store can
contain: the longest leading run of decimal digits, `NaN` (`none`) when
there is none. -/
def jsParseInt (s : String) : Option Nat :=
  let ds := s.toList.takeWhile (fun c => c.isDigit)
  if ds.isEmpty then none
  else some (ds.foldl (fun n c => n * 10 + (c.toNat - 48)) 0)

/-- JavaScript `BigInt(s)` on a non-negative decimal setting string: the
whole string must be digits (`BigInt('') = 0`); anything else throws,
modelled as `none`. -/
def jsBigIntDigits (s : String) : Option Nat :=
  if s.toList.all (fun c => c.isDigit) then
    some (s.toList.foldl (fun n c => n * 10 + (c.toNat - 48)) 0)
  else none

/-- Replace the first occurrence of `pat` in a character list by `repl`
(unchanged when `pat` does not occur; an empty `pat` matches at the
front, as in JavaScript). -/
def replaceFirstAux (pat repl : List Char) : List Char → List Char
  | [] => []
  | c :: cs =>
    if pat.isPrefixOf (c :: cs) then repl ++ (c :: cs).drop pat.length
    else c :: replaceFirstAux pat repl cs

/-- JavaScript `String.prototype.replace` with a string pattern: replaces
only the first occurrence.  Used for `telegram_handle.replace('@', '')`. -/
def jsReplaceFirst (s pat repl : String) : String :=
  ⟨replaceFirstAux pat.data repl.data s.data⟩

/-- Ceiling division on `Nat`, for `Math.ceil` over positive exact
quotients. -/
def ceilDivNat (a b : Nat) : Nat := (a + b - 1) / b

/-- Model of `formatChogBalance` (`lib/chog.ts`); the source renders `value / 10^18` in
millions with one fractional digit through floating `toLocaleString`;
modelled with exact integer truncation to one decimal digit.  The string
is display-only: no claim depends on its exact shape. -/
def formatChogBalance (value : Nat) : String :=
  let whole := value / 10 ^ 18
  toString (whole / 1000000) ++ "." ++ toString (whole % 1000000 / 100000) ++ "M"

/-- One element of the orchestrator's `allEligible` array. -/
structure EligibleEntry where
  handle : String
  totalChog : String
  totalRaw : Nat
deriving DecidableEq, Repr

/-- The ordering of `allEligible.sort((a, b) => (b.totalRaw > a.totalRaw ?
1 : -1))`: the comparator puts `a` before `b` exactly when
`a.totalRaw ≥ b.totalRaw`, and the ECMAScript sort is stable, so the call
is a stable sort under this relation. -/
def entryLe (a b : EligibleEntry) : Prop := b.totalRaw ≤ a.totalRaw

instance : DecidableRel entryLe := fun _ b => Nat.decLe b.totalRaw _

instance : IsTotal EligibleEntry entryLe :=
  ⟨fun a b => Nat.le_total b.totalRaw a.totalRaw⟩

instance : IsTrans EligibleEntry entryLe :=
  ⟨fun _ _ _ h1 h2 => Nat.le_trans h2 h1⟩

/-- The leaderboard excerpt: the stable descending sort of `allEligible`
truncated to the top 10, projected to `(handle, totalChog)` as in
`allEligible.slice(0, 10).map(...)`. -/
def topEligibleOf (allEligible : List EligibleEntry) : List (String × String) :=
  ((List.insertionSort entryLe allEligible).take 10).map
    (fun e => (e.handle, e.totalChog))

/-- The external collaborators of one `runScreening` invocation: the chain
reader (per wallet address), whether loading the profile list throws
(orchestration-level failure), and the Telegram sink. -/
structure World where
  directRead : String → Except String Nat
  poolReads : String → LpPair → Except String PoolReads
  profilesLoadError : Option String
  telegramConfigured : Bool
  sendSuccess : Bool

/-- Ghost instrumentation of one invocation: which wallet addresses had
chain reads issued for them, every value written to the run record's
`status` column, and the leaderboard section of the composed message. -/
structure Trace where
  chainReadWallets : List String
  runStatusWrites : List RunStatus
  messageTop : List (String × String)
deriving DecidableEq, Repr

/-- The exposure computation the orchestrator performs for one wallet:
`getTotalChogExposure(env.MONAD_RPC_URL, env.CHOG_CONTRACT, lpPairs,
wallet.address)`. -/
def walletExposure (world : World) (lpPairs : List LpPair)
    (wallet : WalletRec) : Except String ChogExposure :=
  getTotalChogExposure (world.directRead wallet.address)
    (world.poolReads wallet.address) lpPairs

/-- Output of the per-profile wallet loop. -/
structure WalletLoopOut where
  db : DB
  walletDetails : List WalletDetail
  profileTotal : Nat
  walletsOk : Nat
  readWallets : List String
deriving Repr

/-- The `for (const wallet of profile.wallets)` loop: a successful
exposure updates the wallet's cached balances, is pushed onto
`walletDetails` and added to the profile total; a failure marks the wallet
`error` with the reason and contributes nothing. -/
def processWallets (world : World) (lpPairs : List LpPair) (now : Nat) :
    DB → List WalletRec → WalletLoopOut
  | db, [] => ⟨db, [], 0, 0, []⟩
  | db, wallet :: rest =>
    match walletExposure world lpPairs wallet with
    | .ok exposure =>
      let db1 := updateWalletBalances db wallet.id
        (toString exposure.directBalance) (toString exposure.lpBalance)
        (toString exposure.totalBalance) now
      let out := processWallets world lpPairs now db1 rest
      ⟨out.db,
        ⟨wallet.address, toString exposure.directBalance,
          toString exposure.lpBalance, toString exposure.totalBalance⟩
            :: out.walletDetails,
        exposure.totalBalance + out.profileTotal, out.walletsOk + 1,
        wallet.address :: out.readWallets⟩
    | .error msg =>
      let db1 := markWalletError db wallet.id msg
      let out := processWallets world lpPairs now db1 rest
      ⟨out.db, out.walletDetails, out.profileTotal, out.walletsOk,
        wallet.address :: out.readWallets⟩

/-- Output of the per-profile loop. -/
structure ProfileLoopOut where
  db : DB
  walletsProcessed : Nat
  eligibleCount : Nat
  newlyEligible : List (String × String)
  droppedEligible : List String
  allEligible : List EligibleEntry
  readWallets : List String
deriving Repr

/-- The `for (const profile of profiles)` loop: per-profile wallet
processing, eligibility evaluation against the threshold, the diff
against the previously-eligible id set, and the snapshot insert. -/
def processProfiles (world : World) (lpPairs : List LpPair)
    (thresholdRaw : Nat) (previousEligibleIds : List String)
    (runId : String) (now : Nat) :
    DB → List (ProfileRec × List WalletRec) → ProfileLoopOut
  | db, [] => ⟨db, 0, 0, [], [], [], []⟩
  | db, p :: rest =>
    let wo := processWallets world lpPairs now db p.2
    let eligible := isEligible wo.profileTotal thresholdRaw
    let wasEligible := previousEligibleIds.contains p.1.id
    let handle := jsReplaceFirst p.1.telegram_handle "@" ""
    let formatted := formatChogBalance wo.profileTotal
    let db1 := insertSnapshot wo.db runId p.1.id wo.profileTotal eligible
      wo.walletDetails
    let out := processProfiles world lpPairs thresholdRaw previousEligibleIds
      runId now db1 rest
    { db := out.db
      walletsProcessed := wo.walletsOk + out.walletsProcessed
      eligibleCount := (if eligible then 1 else 0) + out.eligibleCount
      newlyEligible :=
        (if eligible && !wasEligible then [(handle, formatted)] else [])
          ++ out.newlyEligible
      droppedEligible :=
        (if !eligible && wasEligible then [handle] else [])
          ++ out.droppedEligible
      allEligible :=
        (if eligible then [⟨handle, formatted, wo.profileTotal⟩] else [])
          ++ out.allEligible
      readWallets := wo.readWallets ++ out.readWallets }

/-- The "previously eligible" id set of a run: the snapshots of the most
recent `success` run (none when no such run exists), keeping those with a
truthy `eligible` column, keyed by profile id. -/
def previousEligibleIds (db : DB) : List String :=
  match getLastScreeningRun db with
  | none => []
  | some lastRun =>
    ((getSnapshotsForRun db lastRun.id).filter
      (fun s => s.eligible != 0)).map (fun s => s.profile_id)

/-- The effective `screening_interval_hours` setting string:
`intervalSetting?.value || '24'`. -/
def intervalHoursStr (db : DB) : String :=
  match getSetting db "screening_interval_hours" with
  | none => "24"
  | some v => if v = "" then "24" else v

/-- The effective `eligibility_threshold_raw` setting string:
`thresholdSetting?.value || '1000000000000000000000000'`. -/
def thresholdStr (db : DB) : String :=
  match getSetting db "eligibility_threshold_raw" with
  | none => "1000000000000000000000000"
  | some v => if v = "" then "1000000000000000000000000" else v

/-- The check `notificationsSetting?.value !== 'false'`. -/
def notificationsEnabled (db : DB) : Bool :=
  match getSetting db "bot_notifications_enabled" with
  | none => true
  | some v => v != "false"

/-- The interval gate of `runScreening`: `some hoursRemaining` when a
non-forced invocation must be skipped (a last successful run exists, the
interval parses, and the elapsed time since that run's start is strictly
below the interval), `none` when the job must execute.  A `NaN` interval
makes the `<` comparison false, so the job runs. -/
def skipGate (db : DB) (now : Nat) : Option Nat :=
  match getLastScreeningRun db with
  | none => none
  | some lastRun =>
    match jsParseInt (intervalHoursStr db) with
    | none => none
    | some intervalHours =>
      let intervalMs : Int := (intervalHours : Int) * 3600000
      let timeSince : Int := (now : Int) - (lastRun.started_at : Int)
      if timeSince < intervalMs then
        some (ceilDivNat (intervalMs - timeSince).toNat 3600000)
      else none

/-- Shape of the value `runScreening` resolves with. -/
structure ScreeningResult where
  runId : String
  status : RunStatus
  profilesProcessed : Nat
  walletsProcessed : Nat
  eligibleCount : Nat
  messageSent : Bool
  error : Option String
deriving DecidableEq, Repr

/-- The early-return value of a skipped invocation. -/
def skipResult (hoursRemaining : Nat) : ScreeningResult :=
  { runId := ""
    status := .success
    profilesProcessed := 0
    walletsProcessed := 0
    eligibleCount := 0
    messageSent := false
    error := some ("Skipped: " ++ toString hoursRemaining ++ "h until next run") }

/-- The body of `runScreening` past the interval gate: insert the
`running` run record, then either the catch branch (orchestration-level
failure while loading profiles or converting the threshold) marking the
run `error`, or the full pass marking it `success`.  Wallet-level
failures are absorbed inside `processWallets`.  The source converts the
threshold setting with `BigInt` at its first use inside `isEligible`;
the conversion (and its possible throw into the catch branch) is
modelled once, where the setting is read. -/
def executeScreening (world : World) (db : DB) (runId : String)
    (now : Nat) : DB × ScreeningResult × Trace :=
  let db0 := insertRunRecord db runId now
  match world.profilesLoadError with
  | some msg =>
    (markRunError db0 runId now msg,
      ⟨runId, .error, 0, 0, 0, false, some msg⟩,
      ⟨[], [.running, .error], []⟩)
  | none =>
    let profiles := getAllProfilesWithWallets db0
    let lpPairs := getEnabledLpPairs db0
    let prevIds := previousEligibleIds db0
    match jsBigIntDigits (thresholdStr db0) with
    | none =>
      (markRunError db0 runId now "Cannot convert threshold to a BigInt",
        ⟨runId, .error, 0, 0, 0, false,
          some "Cannot convert threshold to a BigInt"⟩,
        ⟨[], [.running, .error], []⟩)
    | some thresholdRaw =>
      let out := processProfiles world lpPairs thresholdRaw prevIds runId now
        db0 profiles
      let messageSent := world.telegramConfigured
        && notificationsEnabled out.db && world.sendSuccess
      let db1 := markRunSuccess out.db runId now profiles.length
        out.walletsProcessed out.eligibleCount messageSent
      (db1,
        ⟨runId, .success, profiles.length, out.walletsProcessed,
          out.eligibleCount, messageSent, none⟩,
        ⟨out.readWallets, [.running, .success], topEligibleOf out.allEligible⟩)

/-- Model of `runScreening` (`cron/screening.ts`): the interval gate followed by
`executeScreening`.  `runId` models `generateId()` and `now` models
`Date.now()` at start. -/
def runScreening (world : World) (db : DB) (runId : String) (now : Nat)
    (force : Bool) : DB × ScreeningResult × Trace :=
  if force then executeScreening world db runId now
  else
    match skipGate db now with
    | some hoursRemaining => (db, skipResult hoursRemaining, ⟨[], [], []⟩)
    | none => executeScreening world db runId now

/-- What one wallet contributes to its profile's aggregate in a run: its
computed total exposure when the computation succeeds, zero when it
throws. -/
def walletContribution (world : World) (lpPairs : List LpPair)
    (wallet : WalletRec) : Nat :=
  match walletExposure world lpPairs wallet with
  | .ok exposure => exposure.totalBalance
  | .error _ => 0

/-- A profile's aggregate for a run: the sum of its wallets'
contributions. -/
def profileTotalOf (world : World) (lpPairs : List LpPair)
    (wallets : List WalletRec) : Nat :=
  (wallets.map (walletContribution world lpPairs)).sum

/-- The handle the orchestrator reports for a profile:
`profile.telegram_handle.replace('@', '')`. -/
def strippedHandle (p : ProfileRec) : String :=
  jsReplaceFirst p.telegram_handle "@" ""

/-- Whether a profile is classified eligible in the current run. -/
def profileEligibleNow (world : World) (lpPairs : List LpPair)
    (thresholdRaw : Nat) (pw : ProfileRec × List WalletRec) : Bool :=
  isEligible (profileTotalOf world lpPairs pw.2) thresholdRaw

/-- Lookup of a wallet row by id. -/
def lookupWallet (db : DB) (walletId : String) : Option WalletRec :=
  db.wallets.find? (fun w => w.id == walletId)

/-- The cached-balance columns of a wallet row that a failed exposure
computation must not touch: the three raw balances and the last-checked
timestamp. -/
def walletCacheFields (w : WalletRec) :
    Option String × Option String × Option String × Option Nat :=
  (w.last_direct_chog_raw, w.last_lp_chog_raw, w.last_total_chog_raw,
    w.last_checked_at)

lemma lpLoop_eq (poolReads : LpPair → Except String PoolReads)
    (lpPairs : List LpPair) :
    lpLoop poolReads lpPairs =
      ((lpPairs.map (poolContribution poolReads)).sum,
        lpPairs.filterMap (poolEntry poolReads)) := by
  induction lpPairs with
  | nil => rfl
  | cons pair rest ih =>
    cases hr : poolReads pair with
    | error e => simp [lpLoop, poolContribution, poolEntry, hr, ih]
    | ok reads =>
      cases he : getLpChogExposure pair reads with
      | error e => simp [lpLoop, poolContribution, poolEntry, hr, he, ih]
      | ok res =>
        by_cases hpos : res.2 > 0
        · simp [lpLoop, poolContribution, poolEntry, hr, he, hpos, ih]
        · simp [lpLoop, poolContribution, poolEntry, hr, he, hpos, ih]
          omega

end Chogwatch

namespace Chogwatch

/-- C1: for non-negative integer pool state, `getLpChogExposure` yields a
zero contribution without dividing when the wallet's share balance or the
pool's total supply is zero, and otherwise the floor of
`reserveOfTargetSide * shareBalance / totalSupply`, the target-side
reserve selected by `chog_side`; it never throws. -/
theorem lp_exposure_spec (lpPair : LpPair) (reads : PoolReads) :
    (reads.userLpBalance = 0 ∨ reads.totalSupply = 0 →
      getLpChogExposure lpPair reads = .ok (0, 0)) ∧
    (reads.userLpBalance ≠ 0 → reads.totalSupply ≠ 0 →
      getLpChogExposure lpPair reads =
        .ok (reads.userLpBalance,
          (if lpPair.chog_side = 0 then reads.reserve0 else reads.reserve1)
              * reads.userLpBalance / reads.totalSupply)) ∧
    (∃ v, getLpChogExposure lpPair reads = .ok v) := by
  refine ⟨fun h => by simp [getLpChogExposure, h], fun h1 h2 => ?_, ?_⟩
  · by_cases hc : lpPair.chog_side = 0 <;>
      simp [getLpChogExposure, bigintDiv, h1, h2, hc, Nat.mul_comm]
  · by_cases h : reads.userLpBalance = 0 ∨ reads.totalSupply = 0
    · exact ⟨(0, 0), by simp [getLpChogExposure, h]⟩
    · push_neg at h
      refine ⟨(reads.userLpBalance,
        reads.userLpBalance *
            (if lpPair.chog_side = 0 then reads.reserve0 else reads.reserve1) /
          reads.totalSupply), ?_⟩
      by_cases hc : lpPair.chog_side = 0 <;>
        simp [getLpChogExposure, bigintDiv, h.1, h.2, hc]

/-- Witness for C1 on the spec's own scenario: shareBalance 10, supply 100,
target-side reserve 5000 gives contribution 500. -/
theorem lp_exposure_spec_witness :
    getLpChogExposure ⟨"0xp", none, "t0", "t1", 0, 1, 0⟩ ⟨10, 100, 5000, 7⟩ =
      .ok (10, 5000 * 10 / 100) :=
  (lp_exposure_spec ⟨"0xp", none, "t0", "t1", 0, 1, 0⟩ ⟨10, 100, 5000, 7⟩).2.1
    (by decide) (by decide)

/-- C2: for every wallet (direct balance) and pool list,
`getTotalChogExposure` returns total = direct + sum of per-pool
contributions, where a pool whose reads throw contributes zero and is
excluded from the breakdown while every other pool still contributes; the
per-pool failure does not abort the computation. -/
theorem total_exposure_spec (directBalance : Nat)
    (poolReads : LpPair → Except String PoolReads) (lpPairs : List LpPair) :
    getTotalChogExposure (.ok directBalance) poolReads lpPairs =
      .ok { directBalance := directBalance
            lpBalance := (lpPairs.map (poolContribution poolReads)).sum
            totalBalance :=
              directBalance + (lpPairs.map (poolContribution poolReads)).sum
            lpBreakdown := lpPairs.filterMap (poolEntry poolReads) } ∧
    (∀ pair e, poolReads pair = .error e →
      poolContribution poolReads pair = 0 ∧ poolEntry poolReads pair = none) := by
  constructor
  · simp [getTotalChogExposure, lpLoop_eq]
  · intro pair e he
    constructor <;> simp [poolContribution, poolEntry, he]

/-- Witness for C2: one failing pool (modelled by `enabled = 0` in the
oracle's test) and one succeeding pool; the failing pool contributes zero
and produces no breakdown entry. -/
theorem total_exposure_spec_witness :
    getTotalChogExposure (.ok 100)
        (fun pair => if pair.chog_side = 2 then .error "boom"
          else .ok ⟨10, 100, 5000, 7⟩)
        [⟨"0xbad", none, "t0", "t1", 2, 1, 0⟩, ⟨"0xp", none, "t0", "t1", 0, 1, 0⟩] =
      .ok { directBalance := 100
            lpBalance := 500
            totalBalance := 600
            lpBreakdown := [⟨"0xp", none, 10, 500⟩] } ∧
    poolContribution
        (fun pair => if pair.chog_side = 2 then .error "boom"
          else .ok ⟨10, 100, 5000, 7⟩)
        ⟨"0xbad", none, "t0", "t1", 2, 1, 0⟩ = 0 := by
  have h := total_exposure_spec 100
    (fun pair => if pair.chog_side = 2 then .error "boom"
      else .ok ⟨10, 100, 5000, 7⟩)
    [⟨"0xbad", none, "t0", "t1", 2, 1, 0⟩, ⟨"0xp", none, "t0", "t1", 0, 1, 0⟩]
  refine ⟨h.1.trans ?_, (h.2 ⟨"0xbad", none, "t0", "t1", 2, 1, 0⟩ "boom" rfl).1⟩
  rfl

/-- C3: `isEligible` is the exact integer comparison `total ≥ threshold`;
at threshold 10^24, an aggregate one below is not eligible and an
aggregate exactly at the threshold is (inclusive boundary). -/
theorem isEligible_spec :
    (∀ total threshold : Nat,
      isEligible total threshold = true ↔ threshold ≤ total) ∧
    isEligible 999999999999999999999999 1000000000000000000000000 = false ∧
    isEligible 1000000000000000000000000 1000000000000000000000000 = true := by
  refine ⟨fun total threshold => ?_, by decide, by decide⟩
  simp [isEligible]

/-- Witness for C3 exercising the equivalence at a concrete boundary pair. -/
theorem isEligible_spec_witness : isEligible 7 7 = true :=
  (isEligible_spec.1 7 7).mpr (by decide)

lemma processWallets_profileTotal (world : World) (lpPairs : List LpPair)
    (now : Nat) : ∀ (db : DB) (ws : List WalletRec),
    (processWallets world lpPairs now db ws).profileTotal =
      profileTotalOf world lpPairs ws := by
  intro db ws
  induction ws generalizing db with
  | nil => rfl
  | cons w rest ih =>
    cases he : walletExposure world lpPairs w <;>
      simp [processWallets, he, ih, walletContribution, profileTotalOf]

lemma processWallets_runs (world : World) (lpPairs : List LpPair)
    (now : Nat) : ∀ (db : DB) (ws : List WalletRec),
    (processWallets world lpPairs now db ws).db.screening_runs =
      db.screening_runs := by
  intro db ws
  induction ws generalizing db with
  | nil => rfl
  | cons w rest ih =>
    cases he : walletExposure world lpPairs w <;>
      simp [processWallets, he, ih, updateWalletBalances, markWalletError]

lemma processProfiles_runs (world : World) (lpPairs : List LpPair)
    (thr : Nat) (prev : List String) (runId : String) (now : Nat) :
    ∀ (db : DB) (ps : List (ProfileRec × List WalletRec)),
    (processProfiles world lpPairs thr prev runId now db ps).db.screening_runs
      = db.screening_runs := by
  intro db ps
  induction ps generalizing db with
  | nil => rfl
  | cons p rest ih =>
    simp [processProfiles, ih, insertSnapshot, processWallets_runs]

lemma find?_map_id_preserving (l : List WalletRec) (wid : String)
    (upd : WalletRec → WalletRec) (hid : ∀ w, (upd w).id = w.id) :
    (l.map (fun w => if w.id == wid then upd w else w)).find?
        (fun w => w.id == wid)
      = (l.find? (fun w => w.id == wid)).map upd := by
  induction l with
  | nil => rfl
  | cons a l ih =>
    cases ha : (a.id == wid) with
    | true => simp [List.find?, ha, hid]
    | false =>
      have hfa : (if (a.id == wid) = true then upd a else a) = a := by
        simp [ha]
      rw [List.map_cons, hfa, List.find?_cons_of_neg _ (by simp [ha]),
        List.find?_cons_of_neg _ (by simp [ha]), ih]

lemma processProfiles_lists (world : World) (lpPairs : List LpPair)
    (thr : Nat) (prev : List String) (runId : String) (now : Nat) :
    ∀ (db : DB) (ps : List (ProfileRec × List WalletRec)),
    (processProfiles world lpPairs thr prev runId now db ps).newlyEligible =
      (ps.filter (fun p => profileEligibleNow world lpPairs thr p
          && !(prev.contains p.1.id))).map
        (fun p => (strippedHandle p.1,
          formatChogBalance (profileTotalOf world lpPairs p.2))) ∧
    (processProfiles world lpPairs thr prev runId now db ps).droppedEligible =
      (ps.filter (fun p => !(profileEligibleNow world lpPairs thr p)
          && prev.contains p.1.id)).map (fun p => strippedHandle p.1) ∧
    (processProfiles world lpPairs thr prev runId now db ps).allEligible =
      (ps.filter (fun p => profileEligibleNow world lpPairs thr p)).map
        (fun p => ⟨strippedHandle p.1,
          formatChogBalance (profileTotalOf world lpPairs p.2),
          profileTotalOf world lpPairs p.2⟩) := by
  intro db ps
  induction ps generalizing db with
  | nil => exact ⟨rfl, rfl, rfl⟩
  | cons p rest ih =>
    simp only [processProfiles, processWallets_profileTotal]
    refine ⟨?_, ?_, ?_⟩
    · rw [(ih _).1]
      cases he : profileEligibleNow world lpPairs thr p <;>
        cases hw : prev.contains p.1.id <;>
          simp_all [List.filter_cons, profileEligibleNow, strippedHandle]
    · rw [(ih _).2.1]
      cases he : profileEligibleNow world lpPairs thr p <;>
        cases hw : prev.contains p.1.id <;>
          simp_all [List.filter_cons, profileEligibleNow, strippedHandle]
    · rw [(ih _).2.2]
      cases he : profileEligibleNow world lpPairs thr p <;>
        cases hw : prev.contains p.1.id <;>
          simp_all [List.filter_cons, profileEligibleNow, strippedHandle]

end Chogwatch

namespace Chogwatch

/-- C4: a non-forced invocation within the interval (elapsed strictly
below the configured interval since the last successful run's start) is a
no-op: the database is unchanged (no run record), and the trace is empty
(no chain reads, no status writes); with the gate passing (non-forced,
`skipGate` clear) or with `force`, the orchestrator executes and creates
exactly one new run record. -/
theorem interval_gate_spec (world : World) (db : DB) (runId : String)
    (now : Nat) :
    (∀ h, skipGate db now = some h →
      runScreening world db runId now false = (db, skipResult h, ⟨[], [], []⟩)) ∧
    (skipGate db now = none →
      runScreening world db runId now false = executeScreening world db runId now) ∧
    runScreening world db runId now true = executeScreening world db runId now ∧
    (executeScreening world db runId now).1.screening_runs.length
      = db.screening_runs.length + 1 ∧
    (∀ lastRun intervalHours,
      getLastScreeningRun db = some lastRun →
      jsParseInt (intervalHoursStr db) = some intervalHours →
      (((now : Int) - (lastRun.started_at : Int)
          < (intervalHours : Int) * 3600000) ↔ skipGate db now ≠ none)) := by
  refine ⟨?_, ?_, ?_, ?_, ?_⟩
  · intro h hs
    simp [runScreening, hs]
  · intro hs
    simp [runScreening, hs]
  · simp [runScreening]
  · simp only [executeScreening]
    split
    · simp [markRunError, insertRunRecord]
    · split
      · simp [markRunError, insertRunRecord]
      · simp [markRunSuccess, processProfiles_runs, insertRunRecord]
  · intro lastRun intervalHours h1 h2
    unfold skipGate
    rw [h1, h2]
    by_cases hlt : (now : Int) - (lastRun.started_at : Int)
        < (intervalHours : Int) * 3600000 <;> simp [hlt]

/-- Witness for C4: a database whose last successful run started at time
0, invoked non-forced at `now = 1000` with the default 24h interval, is
skipped untouched. -/
theorem interval_gate_spec_witness :
    runScreening
        ⟨fun _ => .ok 0, fun _ _ => .ok ⟨0, 0, 0, 0⟩, none, false, false⟩
        ⟨[], [], [], [⟨"r0", 0, some 5, .success, none, 0, 0, 0, 1⟩], [], []⟩
        "r1" 1000 false
      = (⟨[], [], [], [⟨"r0", 0, some 5, .success, none, 0, 0, 0, 1⟩], [], []⟩,
          skipResult 24, ⟨[], [], []⟩) :=
  (interval_gate_spec
      ⟨fun _ => .ok 0, fun _ _ => .ok ⟨0, 0, 0, 0⟩, none, false, false⟩
      ⟨[], [], [], [⟨"r0", 0, some 5, .success, none, 0, 0, 0, 1⟩], [], []⟩
      "r1" 1000).1 24 (by decide)

/-- C9: a skipped (non-forced, within-interval) invocation resolves with
status `success`, an empty `runId`, zero counters, `messageSent` false,
and an error string that is `"Skipped:"` followed by the remaining-hours
text — so only the empty `runId` or the error field distinguishes it from
a real successful run. -/
theorem skip_result_shape_spec (world : World) (db : DB) (runId : String)
    (now h : Nat) (hs : skipGate db now = some h) :
    (runScreening world db runId now false).2.1.status = .success ∧
    (runScreening world db runId now false).2.1.runId = "" ∧
    (runScreening world db runId now false).2.1.profilesProcessed = 0 ∧
    (runScreening world db runId now false).2.1.walletsProcessed = 0 ∧
    (runScreening world db runId now false).2.1.eligibleCount = 0 ∧
    (runScreening world db runId now false).2.1.messageSent = false ∧
    (runScreening world db runId now false).2.1.error =
      some ("Skipped: " ++ toString h ++ "h until next run") ∧
    (∃ rest, (runScreening world db runId now false).2.1.error =
      some ("Skipped: " ++ rest)) := by
  have hrun : runScreening world db runId now false =
      (db, skipResult h, ⟨[], [], []⟩) := by
    simp [runScreening, hs]
  rw [hrun]
  refine ⟨rfl, rfl, rfl, rfl, rfl, rfl, rfl,
    ⟨toString h ++ "h until next run", ?_⟩⟩
  show some (("Skipped: " ++ toString h) ++ "h until next run") =
    some ("Skipped: " ++ (toString h ++ "h until next run"))
  rw [String.append_assoc]

/-- Witness for C9 at the concrete skipped invocation of the C4 database. -/
theorem skip_result_shape_spec_witness :
    (runScreening
        ⟨fun _ => .ok 0, fun _ _ => .ok ⟨0, 0, 0, 0⟩, none, false, false⟩
        ⟨[], [], [], [⟨"r0", 0, some 5, .success, none, 0, 0, 0, 1⟩], [], []⟩
        "r1" 1000 false).2.1.status = RunStatus.success ∧
    (runScreening
        ⟨fun _ => .ok 0, fun _ _ => .ok ⟨0, 0, 0, 0⟩, none, false, false⟩
        ⟨[], [], [], [⟨"r0", 0, some 5, .success, none, 0, 0, 0, 1⟩], [], []⟩
        "r1" 1000 false).2.1.runId = "" :=
  have h := skip_result_shape_spec
    ⟨fun _ => .ok 0, fun _ _ => .ok ⟨0, 0, 0, 0⟩, none, false, false⟩
    ⟨[], [], [], [⟨"r0", 0, some 5, .success, none, 0, 0, 0, 1⟩], [], []⟩
    "r1" 1000 24 (by decide)
  ⟨h.1, h.2.1⟩

/-- C5: the previously-eligible set comes from the most recent `success`
run (a run `getLastScreeningRun` returns is a `success` member of the
table maximising `started_at`; when it returns none, no `success` run
exists); a profile lands in `newlyEligible` iff eligible now and not
previously eligible, and in `droppedEligible` iff previously eligible and
not eligible now; for previous set `{A, B}` and current set `{B, C}` this
gives newly = `{C}` and dropped = `{A}`. -/
theorem diff_classification_spec :
    (∀ (world : World) (lpPairs : List LpPair) (thr : Nat)
        (prev : List String) (runId : String) (now : Nat) (db : DB)
        (ps : List (ProfileRec × List WalletRec)),
      (processProfiles world lpPairs thr prev runId now db ps).newlyEligible =
        (ps.filter (fun p => profileEligibleNow world lpPairs thr p
            && !(prev.contains p.1.id))).map
          (fun p => (strippedHandle p.1,
            formatChogBalance (profileTotalOf world lpPairs p.2)))) ∧
    (∀ (world : World) (lpPairs : List LpPair) (thr : Nat)
        (prev : List String) (runId : String) (now : Nat) (db : DB)
        (ps : List (ProfileRec × List WalletRec)),
      (processProfiles world lpPairs thr prev runId now db ps).droppedEligible =
        (ps.filter (fun p => !(profileEligibleNow world lpPairs thr p)
            && prev.contains p.1.id)).map (fun p => strippedHandle p.1)) ∧
    (∀ (db : DB) (r : ScreeningRunRec), getLastScreeningRun db = some r →
      r ∈ db.screening_runs ∧ r.status = .success ∧
        ∀ r' ∈ db.screening_runs, r'.status = .success →
          r'.started_at ≤ r.started_at) ∧
    (∀ db : DB, getLastScreeningRun db = none →
      ∀ r' ∈ db.screening_runs, r'.status ≠ .success) ∧
    ((processProfiles
        ⟨fun addr => .ok (if addr = "b" then 2000000
            else if addr = "c" then 1000000 else 500),
          fun _ _ => .ok ⟨0, 0, 0, 0⟩, none, true, true⟩
        [] 1000 ["A", "B"] "r" 9 ⟨[], [], [], [], [], []⟩
        [(⟨"A", "A", "h", 0, 0⟩,
            [⟨"wa", "A", "a", none, none, none, none, none, none, .verified, none, 0⟩]),
          (⟨"B", "B", "h", 0, 0⟩,
            [⟨"wb", "B", "b", none, none, none, none, none, none, .verified, none, 0⟩]),
          (⟨"C", "C", "h", 0, 0⟩,
            [⟨"wc", "C", "c", none, none, none, none, none, none, .verified, none, 0⟩])]
      ).newlyEligible.map Prod.fst = ["C"] ∧
      (processProfiles
        ⟨fun addr => .ok (if addr = "b" then 2000000
            else if addr = "c" then 1000000 else 500),
          fun _ _ => .ok ⟨0, 0, 0, 0⟩, none, true, true⟩
        [] 1000 ["A", "B"] "r" 9 ⟨[], [], [], [], [], []⟩
        [(⟨"A", "A", "h", 0, 0⟩,
            [⟨"wa", "A", "a", none, none, none, none, none, none, .verified, none, 0⟩]),
          (⟨"B", "B", "h", 0, 0⟩,
            [⟨"wb", "B", "b", none, none, none, none, none, none, .verified, none, 0⟩]),
          (⟨"C", "C", "h", 0, 0⟩,
            [⟨"wc", "C", "c", none, none, none, none, none, none, .verified, none, 0⟩])]
      ).droppedEligible = ["A"]) := by
  refine ⟨?_, ?_, ?_, ?_, by decide, by decide⟩
  · intro world lpPairs thr prev runId now db ps
    exact (processProfiles_lists world lpPairs thr prev runId now db ps).1
  · intro world lpPairs thr prev runId now db ps
    exact (processProfiles_lists world lpPairs thr prev runId now db ps).2.1
  · intro db r hr
    have hmem : r ∈ (db.screening_runs.filter
        (fun x => x.status == RunStatus.success)) :=
      List.argmax_mem hr
    have hmem' := List.mem_filter.mp hmem
    refine ⟨hmem'.1, by simpa using hmem'.2, ?_⟩
    intro r' hr' hs'
    exact List.le_of_mem_argmax
      (List.mem_filter.mpr ⟨hr', by simp [hs']⟩) hr
  · intro db hnone r' hr' hs'
    have : db.screening_runs.filter
        (fun x => x.status == RunStatus.success) = [] :=
      List.argmax_eq_none.mp hnone
    have := List.filter_eq_nil_iff.mp this r' hr'
    simp [hs'] at this

/-- Witness for C5: a database with two `success` runs; the gate picks the
later one, and the maximality conjunct applies to the earlier one. -/
theorem diff_classification_spec_witness :
    (⟨"r1", 10, some 11, .success, none, 0, 0, 0, 1⟩ : ScreeningRunRec)
        ∈ (⟨[], [], [],
            [⟨"r0", 0, some 5, .success, none, 0, 0, 0, 1⟩,
              ⟨"r1", 10, some 11, .success, none, 0, 0, 0, 1⟩], [], []⟩ : DB
          ).screening_runs ∧
    (⟨"r1", 10, some 11, .success, none, 0, 0, 0, 1⟩ : ScreeningRunRec).status
        = RunStatus.success ∧
    ∀ r' ∈ (⟨[], [], [],
            [⟨"r0", 0, some 5, .success, none, 0, 0, 0, 1⟩,
              ⟨"r1", 10, some 11, .success, none, 0, 0, 0, 1⟩], [], []⟩ : DB
          ).screening_runs, r'.status = RunStatus.success →
      r'.started_at ≤
        (⟨"r1", 10, some 11, .success, none, 0, 0, 0, 1⟩ : ScreeningRunRec).started_at :=
  diff_classification_spec.2.2.1
    ⟨[], [], [],
      [⟨"r0", 0, some 5, .success, none, 0, 0, 0, 1⟩,
        ⟨"r1", 10, some 11, .success, none, 0, 0, 0, 1⟩], [], []⟩
    ⟨"r1", 10, some 11, .success, none, 0, 0, 0, 1⟩ (by decide)

/-- C6: a wallet whose exposure computation throws contributes zero; the
profile aggregate always equals the sum of the wallets' contributions;
the error branch writes exactly `status = 'error'` with the reason into
the wallet row and continues with the remaining wallets; concretely, a
profile with an erroring wallet and a wallet worth 42 aggregates to 42,
one wallet processed, and the erroring wallet's row shows `error`. -/
theorem wallet_failure_isolation_spec :
    (∀ (world : World) (lpPairs : List LpPair) (now : Nat) (db : DB)
        (ws : List WalletRec),
      (processWallets world lpPairs now db ws).profileTotal =
        profileTotalOf world lpPairs ws) ∧
    (∀ (world : World) (lpPairs : List LpPair) (w : WalletRec) (msg : String),
      walletExposure world lpPairs w = .error msg →
      walletContribution world lpPairs w = 0) ∧
    (∀ (world : World) (lpPairs : List LpPair) (now : Nat) (db : DB)
        (w : WalletRec) (rest : List WalletRec) (msg : String),
      walletExposure world lpPairs w = .error msg →
      processWallets world lpPairs now db (w :: rest) =
        ⟨(processWallets world lpPairs now (markWalletError db w.id msg) rest).db,
          (processWallets world lpPairs now (markWalletError db w.id msg) rest).walletDetails,
          (processWallets world lpPairs now (markWalletError db w.id msg) rest).profileTotal,
          (processWallets world lpPairs now (markWalletError db w.id msg) rest).walletsOk,
          w.address ::
            (processWallets world lpPairs now (markWalletError db w.id msg) rest).readWallets⟩) ∧
    (∀ (db : DB) (wid msg : String) (w : WalletRec),
      lookupWallet db wid = some w →
      lookupWallet (markWalletError db wid msg) wid =
        some { w with status := .error, error_reason := some msg }) ∧
    ((processWallets
        ⟨fun addr => if addr = "bad" then .error "boom" else .ok 42,
          fun _ _ => .ok ⟨0, 0, 0, 0⟩, none, true, true⟩
        [] 7
        ⟨[], [⟨"w1", "P", "bad", none, none, none, none, none, none, .verified, none, 0⟩,
            ⟨"w2", "P", "good", none, none, none, none, none, none, .verified, none, 0⟩],
          [], [], [], []⟩
        [⟨"w1", "P", "bad", none, none, none, none, none, none, .verified, none, 0⟩,
          ⟨"w2", "P", "good", none, none, none, none, none, none, .verified, none, 0⟩]
      ).profileTotal = 42 ∧
      (processWallets
        ⟨fun addr => if addr = "bad" then .error "boom" else .ok 42,
          fun _ _ => .ok ⟨0, 0, 0, 0⟩, none, true, true⟩
        [] 7
        ⟨[], [⟨"w1", "P", "bad", none, none, none, none, none, none, .verified, none, 0⟩,
            ⟨"w2", "P", "good", none, none, none, none, none, none, .verified, none, 0⟩],
          [], [], [], []⟩
        [⟨"w1", "P", "bad", none, none, none, none, none, none, .verified, none, 0⟩,
          ⟨"w2", "P", "good", none, none, none, none, none, none, .verified, none, 0⟩]
      ).walletsOk = 1 ∧
      lookupWallet
        (processWallets
          ⟨fun addr => if addr = "bad" then .error "boom" else .ok 42,
            fun _ _ => .ok ⟨0, 0, 0, 0⟩, none, true, true⟩
          [] 7
          ⟨[], [⟨"w1", "P", "bad", none, none, none, none, none, none, .verified, none, 0⟩,
              ⟨"w2", "P", "good", none, none, none, none, none, none, .verified, none, 0⟩],
            [], [], [], []⟩
          [⟨"w1", "P", "bad", none, none, none, none, none, none, .verified, none, 0⟩,
            ⟨"w2", "P", "good", none, none, none, none, none, none, .verified, none, 0⟩]
        ).db "w1" =
        some ⟨"w1", "P", "bad", none, none, none, none, none, none, .error,
          some "boom", 0⟩) := by
  refine ⟨processWallets_profileTotal, ?_, ?_, ?_, by decide, by decide, by decide⟩
  · intro world lpPairs w msg h
    simp [walletContribution, h]
  · intro world lpPairs now db w rest msg h
    simp [processWallets, h]
  · intro db wid msg w hw
    unfold lookupWallet markWalletError at *
    rw [find?_map_id_preserving db.wallets wid
      (fun w => { w with status := .error, error_reason := some msg })
      (fun _ => rfl), hw]
    rfl

/-- Witness for C6: the erroring wallet of the concrete scenario
contributes zero. -/
theorem wallet_failure_isolation_spec_witness :
    walletContribution
      ⟨fun addr => if addr = "bad" then .error "boom" else .ok 42,
        fun _ _ => .ok ⟨0, 0, 0, 0⟩, none, true, true⟩
      []
      ⟨"w1", "P", "bad", none, none, none, none, none, none, .verified, none, 0⟩
      = 0 :=
  wallet_failure_isolation_spec.2.1
    ⟨fun addr => if addr = "bad" then .error "boom" else .ok 42,
      fun _ _ => .ok ⟨0, 0, 0, 0⟩, none, true, true⟩
    []
    ⟨"w1", "P", "bad", none, none, none, none, none, none, .verified, none, 0⟩
    "boom" rfl

/-- C7: the leaderboard is the stable descending-by-total sort of the
currently-eligible entries truncated to the top 10: the sort is a
permutation of the eligible entries, pairwise descending, the excerpt has
at most 10 entries, and on eligible totals B:2000000, C:1000000 (A:500
below the 1000000 threshold) the eligible set is `{B, C}` and the
leaderboard order is `[B, C]`. -/
theorem leaderboard_spec :
    (∀ l : List EligibleEntry,
      (List.insertionSort entryLe l).Sorted entryLe) ∧
    (∀ l : List EligibleEntry, List.Perm (List.insertionSort entryLe l) l) ∧
    (∀ l : List EligibleEntry,
      topEligibleOf l = ((List.insertionSort entryLe l).take 10).map
        (fun e => (e.handle, e.totalChog))) ∧
    (∀ l : List EligibleEntry, (topEligibleOf l).length ≤ 10) ∧
    (∀ l : List EligibleEntry,
      ((List.insertionSort entryLe l).take 10).Pairwise entryLe) ∧
    ((processProfiles
        ⟨fun addr => .ok (if addr = "b" then 2000000
            else if addr = "c" then 1000000 else 500),
          fun _ _ => .ok ⟨0, 0, 0, 0⟩, none, true, true⟩
        [] 1000000 [] "r" 9 ⟨[], [], [], [], [], []⟩
        [(⟨"A", "A", "h", 0, 0⟩,
            [⟨"wa", "A", "a", none, none, none, none, none, none, .verified, none, 0⟩]),
          (⟨"B", "B", "h", 0, 0⟩,
            [⟨"wb", "B", "b", none, none, none, none, none, none, .verified, none, 0⟩]),
          (⟨"C", "C", "h", 0, 0⟩,
            [⟨"wc", "C", "c", none, none, none, none, none, none, .verified, none, 0⟩])]
      ).allEligible.map (fun e => e.handle) = ["B", "C"] ∧
      (topEligibleOf (processProfiles
        ⟨fun addr => .ok (if addr = "b" then 2000000
            else if addr = "c" then 1000000 else 500),
          fun _ _ => .ok ⟨0, 0, 0, 0⟩, none, true, true⟩
        [] 1000000 [] "r" 9 ⟨[], [], [], [], [], []⟩
        [(⟨"A", "A", "h", 0, 0⟩,
            [⟨"wa", "A", "a", none, none, none, none, none, none, .verified, none, 0⟩]),
          (⟨"B", "B", "h", 0, 0⟩,
            [⟨"wb", "B", "b", none, none, none, none, none, none, .verified, none, 0⟩]),
          (⟨"C", "C", "h", 0, 0⟩,
            [⟨"wc", "C", "c", none, none, none, none, none, none, .verified, none, 0⟩])]
      ).allEligible).map Prod.fst = ["B", "C"]) := by
  refine ⟨fun l => List.sorted_insertionSort entryLe l,
    fun l => List.perm_insertionSort entryLe l,
    fun l => rfl, fun l => ?_, fun l => ?_, by decide, by decide⟩
  · simp only [topEligibleOf, List.length_map, List.length_take]
    exact Nat.min_le_left 10 _
  · exact List.Pairwise.sublist (List.take_sublist 10 _)
      (List.sorted_insertionSort entryLe l)

/-- C8: every executing invocation (forced, or past the gate) writes the
run record's status exactly twice — `running` at creation and then one
terminal value, `success` or `error`, never `partial`; the terminal value
does not depend on the notification outcome; when the profile list loads
and the threshold converts, the terminal write is `success` (wallet-level
failures included); the freshly created run record ends with a terminal
status. -/
theorem run_lifecycle_spec (world : World) (db : DB) (runId : String)
    (now : Nat) (force : Bool)
    (hgate : force = true ∨ skipGate db now = none) :
    ((runScreening world db runId now force).2.2.runStatusWrites
        = [.running, .success] ∨
      (runScreening world db runId now force).2.2.runStatusWrites
        = [.running, .error]) ∧
    RunStatus.partialRun ∉
      (runScreening world db runId now force).2.2.runStatusWrites ∧
    (∀ b : Bool,
      (runScreening ⟨world.directRead, world.poolReads,
          world.profilesLoadError, world.telegramConfigured, b⟩
          db runId now force).2.2.runStatusWrites
        = (runScreening world db runId now force).2.2.runStatusWrites) ∧
    (world.profilesLoadError = none →
      ∀ thr, jsBigIntDigits (thresholdStr db) = some thr →
      (runScreening world db runId now force).2.2.runStatusWrites
        = [.running, .success]) ∧
    (∃ r, (runScreening world db runId now force).1.screening_runs.head?
        = some r ∧ r.id = runId ∧
        (r.status = .success ∨ r.status = .error)) := by
  have hx : ∀ w : World, runScreening w db runId now force =
      executeScreening w db runId now := by
    intro w
    rcases hgate with hf | hs
    · rw [hf]
      simp [runScreening]
    · cases force
      · simp [runScreening, hs]
      · simp [runScreening]
  simp only [hx]
  refine ⟨?_, ?_, ?_, ?_, ?_⟩
  · cases hpl : world.profilesLoadError with
    | some msg => exact Or.inr (by simp [executeScreening, hpl])
    | none =>
      cases ht : jsBigIntDigits
          (thresholdStr (insertRunRecord db runId now)) with
      | none => exact Or.inr (by simp [executeScreening, hpl, ht])
      | some thr => exact Or.inl (by simp [executeScreening, hpl, ht])
  · cases hpl : world.profilesLoadError with
    | some msg => simp [executeScreening, hpl]
    | none =>
      cases ht : jsBigIntDigits
          (thresholdStr (insertRunRecord db runId now)) with
      | none => simp [executeScreening, hpl, ht]
      | some thr => simp [executeScreening, hpl, ht]
  · intro b
    cases hpl : world.profilesLoadError with
    | some msg => simp [executeScreening, hpl]
    | none =>
      cases ht : jsBigIntDigits
          (thresholdStr (insertRunRecord db runId now)) with
      | none => simp [executeScreening, hpl, ht]
      | some thr => simp [executeScreening, hpl, ht]
  · intro h0 thr hthr
    cases ht : jsBigIntDigits
        (thresholdStr (insertRunRecord db runId now)) with
    | none =>
      have hx2 : jsBigIntDigits (thresholdStr db) = none := ht
      rw [hthr] at hx2
      simp at hx2
    | some thr' => simp [executeScreening, h0, ht]
  · cases hpl : world.profilesLoadError with
    | some msg =>
      refine ⟨⟨runId, now, some now, .error, some msg, 0, 0, 0, 0⟩, ?_,
        rfl, Or.inr rfl⟩
      simp [executeScreening, hpl, markRunError, insertRunRecord]
    | none =>
      cases ht : jsBigIntDigits
          (thresholdStr (insertRunRecord db runId now)) with
      | none =>
        refine ⟨⟨runId, now, some now, .error,
          some "Cannot convert threshold to a BigInt", 0, 0, 0, 0⟩, ?_,
          rfl, Or.inr rfl⟩
        simp only [executeScreening, hpl]
        rw [ht]
        simp [markRunError, insertRunRecord]
      | some thr =>
        simp only [executeScreening, hpl]
        rw [ht]
        simp only [markRunSuccess, processProfiles_runs, insertRunRecord,
          List.map_cons, List.head?_cons, beq_self_eq_true, if_true]
        exact ⟨_, rfl, rfl, Or.inl rfl⟩

/-- Witness for C8: a forced run on an empty database with the default
threshold terminates with the write sequence `running`, `success`. -/
theorem run_lifecycle_spec_witness :
    (runScreening
        ⟨fun _ => .ok 0, fun _ _ => .ok ⟨0, 0, 0, 0⟩, none, false, false⟩
        ⟨[], [], [], [], [], []⟩ "r1" 0 true).2.2.runStatusWrites
      = [RunStatus.running, RunStatus.success] :=
  (run_lifecycle_spec
      ⟨fun _ => .ok 0, fun _ _ => .ok ⟨0, 0, 0, 0⟩, none, false, false⟩
      ⟨[], [], [], [], [], []⟩ "r1" 0 true (Or.inl rfl)).2.2.2.1 rfl
    1000000000000000000000000 (by decide)

/-- C10: when a wallet's exposure computation fails, the run performs
exactly the `markWalletError` write for it before continuing, and
`markWalletError` leaves every row's cached balance columns and
`last_checked_at` unchanged — it touches only `status` and
`error_reason` of the matching row. -/
theorem wallet_error_frame_spec :
    (∀ (world : World) (lpPairs : List LpPair) (now : Nat) (db : DB)
        (w : WalletRec) (rest : List WalletRec) (msg : String),
      walletExposure world lpPairs w = .error msg →
      (processWallets world lpPairs now db (w :: rest)).db =
        (processWallets world lpPairs now
          (markWalletError db w.id msg) rest).db) ∧
    (∀ (db : DB) (wid msg : String),
      (markWalletError db wid msg).wallets.length = db.wallets.length) ∧
    (∀ (db : DB) (wid msg : String) (i : Nat),
      ((markWalletError db wid msg).wallets[i]?).map walletCacheFields =
        (db.wallets[i]?).map walletCacheFields) ∧
    (∀ (db : DB) (wid msg : String) (i : Nat),
      (markWalletError db wid msg).wallets[i]? =
        (db.wallets[i]?).map (fun w =>
          if w.id == wid then
            { w with status := .error, error_reason := some msg }
          else w)) := by
  refine ⟨?_, ?_, ?_, ?_⟩
  · intro world lpPairs now db w rest msg h
    simp [processWallets, h]
  · intro db wid msg
    simp [markWalletError]
  · intro db wid msg i
    simp only [markWalletError, List.getElem?_map]
    cases h : db.wallets[i]? with
    | none => rfl
    | some w =>
      by_cases hw : w.id = wid <;> simp [hw, walletCacheFields]
  · intro db wid msg i
    simp [markWalletError, List.getElem?_map]

/-- Witness for C10: processing a single erroring wallet produces exactly
the `markWalletError` database write. -/
theorem wallet_error_frame_spec_witness :
    (processWallets
        ⟨fun addr => if addr = "bad" then .error "boom" else .ok 42,
          fun _ _ => .ok ⟨0, 0, 0, 0⟩, none, true, true⟩
        [] 7
        ⟨[], [⟨"w1", "P", "bad", none, some 3, some 4, some "1", some "2",
            some "3", .verified, none, 0⟩], [], [], [], []⟩
        [⟨"w1", "P", "bad", none, some 3, some 4, some "1", some "2",
            some "3", .verified, none, 0⟩]).db =
      (processWallets
        ⟨fun addr => if addr = "bad" then .error "boom" else .ok 42,
          fun _ _ => .ok ⟨0, 0, 0, 0⟩, none, true, true⟩
        [] 7
        (markWalletError
          ⟨[], [⟨"w1", "P", "bad", none, some 3, some 4, some "1", some "2",
              some "3", .verified, none, 0⟩], [], [], [], []⟩
          "w1" "boom") []).db :=
  wallet_error_frame_spec.1
    ⟨fun addr => if addr = "bad" then .error "boom" else .ok 42,
      fun _ _ => .ok ⟨0, 0, 0, 0⟩, none, true, true⟩
    [] 7
    ⟨[], [⟨"w1", "P", "bad", none, some 3, some 4, some "1", some "2",
        some "3", .verified, none, 0⟩], [], [], [], []⟩
    ⟨"w1", "P", "bad", none, some 3, some 4, some "1", some "2",
        some "3", .verified, none, 0⟩
    [] "boom" rfl

end Chogwatch
